import Mathlib

/-!
Shallow embedding of the points-ledger transaction engine of the csc309-A2
loyalty-points service (route handlers in `src/routes/`), together with proofs
of the spec-level properties about it.

The embedding mirrors the JavaScript source:
* JS `Math.round` is round-half-toward-plus-infinity (`jsRound`);
* Prisma stores are modelled as lists of records in a `Store` structure;
* each route handler / transaction body is a pure function from a `Store`
  (plus its inputs) to `Except HttpError (Store × response)` — an error result
  corresponds to a rolled-back `prisma.$transaction` (no writes).
-/

namespace Ledger

/-- JS `Math.round`: round half toward +∞. -/
def jsRound (q : ℚ) : ℤ := (q + 1/2).floor

/-- `computeBaseEarned` from `src/routes/transactions.js`:
`Math.round(spentCents / 25)`. -/
def computeBaseEarned (spentCents : ℤ) : ℤ := jsRound ((spentCents : ℚ) / 25)

/-- `computeRateBonus` from `src/routes/transactions.js`:
`Math.round(spentCents * rate)`. -/
def computeRateBonus (spentCents : ℤ) (rate : ℚ) : ℤ := jsRound ((spentCents : ℚ) * rate)

/-- `HttpError` from `src/routes/transactions.js`. -/
structure HttpError where
  status : Nat
  message : String
deriving Repr, DecidableEq

/-- The four-tier role hierarchy. -/
inductive Role where
  | regular | cashier | manager | superuser
deriving Repr, DecidableEq

/-- `roleRank` from `src/routes/transactions.js`. -/
def roleRank : Role → Nat
  | .regular => 1
  | .cashier => 2
  | .manager => 3
  | .superuser => 4

inductive TxType where
  | purchase | adjustment | transfer | redemption | event
deriving Repr, DecidableEq

inductive PromotionType where
  | automatic | onetime
deriving Repr, DecidableEq

structure User where
  id : Nat
  utorid : String
  points : ℤ
  role : Role
  verified : Bool
  suspicious : Bool
deriving Repr, DecidableEq

structure Promotion where
  id : Nat
  type : PromotionType
  startTime : ℤ
  endTime : ℤ
  minSpending : Option ℚ
  rate : Option ℚ
  points : Option ℤ
deriving Repr, DecidableEq

structure Transaction where
  id : Nat
  type : TxType
  amount : ℤ
  spent : Option ℚ
  suspicious : Bool
  userId : Nat
  createdById : Nat
  relatedTransactionId : Option Nat
  relatedUserId : Option Nat
  eventId : Option Nat
  processedById : Option Nat
  remark : Option String
deriving Repr, DecidableEq

/-- Join record linking a transaction to an applied promotion. -/
structure TransactionPromotion where
  transactionId : Nat
  promotionId : Nat
deriving Repr, DecidableEq

structure Event where
  id : Nat
  pointsRemain : ℤ
  pointsAwarded : ℤ
deriving Repr, DecidableEq

structure EventGuest where
  eventId : Nat
  userId : Nat
  confirmed : Bool
deriving Repr, DecidableEq

structure EventOrganizer where
  eventId : Nat
  userId : Nat
deriving Repr, DecidableEq

/-- The relational store the handlers read and write. -/
structure Store where
  users : List User
  transactions : List Transaction
  promotions : List Promotion
  transactionPromotions : List TransactionPromotion
  events : List Event
  eventGuests : List EventGuest
  eventOrganizers : List EventOrganizer
  nextTxId : Nat
deriving Repr, DecidableEq

/-- `normalizeUtorid` from `src/routes/transactions.js`. -/
def normalizeUtorid (utorid : String) : String := utorid.trim.toLower

/-- Points of the user with the given id (`prisma.user.findUnique`). -/
def getPoints (s : Store) (uid : Nat) : Option ℤ :=
  (s.users.find? (fun u => u.id == uid)).map (·.points)

/-- `prisma.user.update … points: { increment: delta }`. -/
def updatePoints (s : Store) (uid : Nat) (delta : ℤ) : Store :=
  { s with users := s.users.map (fun u => if u.id == uid then { u with points := u.points + delta } else u) }

/-- `normalizePromotionIds` input: a JS value that is either absent
(`undefined`), `null`, or an array of numbers.  (String entries go through
`parseInt`; the claims only concern numeric entries, absent and `null`
inputs, so array elements are modelled as JS numbers.) -/
inductive PromoIdsInput where
  | undef
  | null
  | arr (raws : List ℚ)
deriving Repr, DecidableEq

/-- One step of the `normalizePromotionIds` loop body on a numeric entry:
`Number.isInteger(id)` and `id > 0`, then push if not already present. -/
def normalizeStep (unique : List Nat) (raw : ℚ) : Except HttpError (List Nat) :=
  if raw.den != 1 || raw.num ≤ 0 then
    .error ⟨400, "promotionIds must contain positive integers"⟩
  else
    let id := raw.num.toNat
    if unique.contains id then .ok unique else .ok (unique ++ [id])

/-- `normalizePromotionIds` from `src/routes/transactions.js` (lines 72–100).
Note the source checks `promotionIds === null` only: an *absent* field
(`undefined`) is not an array and is rejected with a 400 error. -/
def normalizePromotionIds : PromoIdsInput → Except HttpError (List Nat)
  | .undef => .error ⟨400, "promotionIds must be an array"⟩
  | .null => .ok []
  | .arr raws => raws.foldlM normalizeStep []

/-- `tx.transactionPromotion.findFirst({ where: { promotionId, transaction: { userId } } })`
viewed as an existence check: some join row for this promotion belongs to a
transaction owned by this user. -/
def promotionUsed (s : Store) (promotionId userId : Nat) : Bool :=
  s.transactionPromotions.any (fun tp =>
    tp.promotionId == promotionId &&
      s.transactions.any (fun tr => tr.id == tp.transactionId && tr.userId == userId))

/-- The per-promotion validation/accumulation loop of
`loadAndValidatePromotions` (lines 131–168): active-window check, minimum
spending check, one-time-use check, then the rate/flat-points accumulation. -/
def evalPromos (s : Store) (userId : Nat) (spentCents : Option ℤ) (now : ℤ) :
    List Promotion → Except HttpError ℤ
  | [] => .ok 0
  | promo :: rest =>
    if promo.startTime > now || promo.endTime < now then
      .error ⟨400, "Promotion is not active"⟩
    else if promo.minSpending.isSome && spentCents.isNone then
      .error ⟨400, "Promotion requires a purchase amount"⟩
    else if (match promo.minSpending, spentCents with
             | some m, some c => decide ((c : ℚ) / 100 < m)
             | _, _ => false) then
      .error ⟨400, "Promotion minimum spending not met"⟩
    else if promo.type == .onetime && promotionUsed s promo.id userId then
      .error ⟨400, "Promotion already used by this user"⟩
    else
      let fromRate :=
        match promo.rate, spentCents with
        | some r, some c => computeRateBonus c r
        | _, _ => 0
      let fromPoints := promo.points.getD 0
      match evalPromos s userId spentCents now rest with
      | .error e => .error e
      | .ok acc => .ok (fromRate + fromPoints + acc)

/-- `loadAndValidatePromotions` from `src/routes/transactions.js`
(lines 107–171): resolve all requested ids (all-or-nothing), then run the
validation/accumulation loop. -/
def loadAndValidatePromotions (s : Store) (promotionIds : List Nat) (userId : Nat)
    (spentCents : Option ℤ) (now : ℤ) : Except HttpError (List Promotion × ℤ) :=
  if promotionIds.isEmpty then .ok ([], 0)
  else
    let promotions := s.promotions.filter (fun p => promotionIds.contains p.id)
    if promotions.length != promotionIds.length then
      .error ⟨400, "One or more promotions are invalid"⟩
    else
      match evalPromos s userId spentCents now promotions with
      | .error e => .error e
      | .ok extraPoints => .ok (promotions, extraPoints)

/-- The response body of a successful purchase creation (lines 419–428). -/
structure PurchaseResponse where
  id : Nat
  utorid : String
  spent : ℚ
  earned : ℤ
  promotionIds : List Nat
  remark : String
  createdBy : String
deriving Repr, DecidableEq

/-- `handlePurchaseCreation` from `src/routes/transactions.js`
(lines 341–437), numeric-`spent` path.  The actor has already passed the
cashier+ role gate of `POST /transactions`. -/
def handlePurchaseCreation (s : Store) (actor : User) (utorid : String) (spent : ℚ)
    (promoInput : PromoIdsInput) (remark : Option String) (now : ℤ) :
    Except HttpError (Store × PurchaseResponse) :=
  if ¬ 0 < spent then .error ⟨400, "spent must be a positive number"⟩
  else
    let spentCents := jsRound (spent * 100)
    let normalizedSpent := (spentCents : ℚ) / 100
    match normalizePromotionIds promoInput with
    | .error e => .error e
    | .ok promotionIdList =>
      let isSuspicious := actor.role == .cashier && actor.suspicious
      match s.users.find? (fun u => u.utorid == normalizeUtorid utorid) with
      | none => .error ⟨404, "User not found"⟩
      | some target =>
        match loadAndValidatePromotions s promotionIdList target.id (some spentCents) now with
        | .error e => .error e
        | .ok (promos, extraPoints) =>
          let baseEarned := computeBaseEarned spentCents
          let earned := baseEarned + extraPoints
          let created : Transaction :=
            { id := s.nextTxId
              type := .purchase
              amount := earned
              spent := some normalizedSpent
              suspicious := isSuspicious
              userId := target.id
              createdById := actor.id
              relatedTransactionId := none
              relatedUserId := none
              eventId := none
              processedById := none
              remark := remark }
          let links := promos.map (fun p => TransactionPromotion.mk s.nextTxId p.id)
          let s1 : Store :=
            { s with
              transactions := created :: s.transactions
              transactionPromotions := links ++ s.transactionPromotions
              nextTxId := s.nextTxId + 1 }
          let s2 := if !isSuspicious && decide (0 < earned) then updatePoints s1 target.id earned else s1
          .ok (s2,
            { id := created.id
              utorid := target.utorid
              spent := normalizedSpent
              earned := if created.suspicious then 0 else created.amount
              promotionIds := promos.map (·.id)
              remark := remark.getD ""
              createdBy := actor.utorid })

/-- `PATCH /transactions/:transactionId/suspicious` (lines 672–746), past the
manager role gate and the boolean/ id syntax checks: the `prisma.$transaction`
body.  The `existing.userId &&` truthiness guard of the source is the
`userId ≠ 0` test (DB ids are ≥ 1); `typeof existing.amount === "number"`
always holds for the non-null integer `amount` column. -/
def setSuspiciousHandler (s : Store) (transactionId : Nat) (suspicious : Bool) :
    Except HttpError (Store × Transaction) :=
  match s.transactions.find? (fun t => t.id == transactionId) with
  | none => .error ⟨404, "Transaction not found"⟩
  | some existing =>
    let sPoints :=
      if existing.suspicious != suspicious then
        if existing.userId != 0 && decide (0 < existing.amount) then
          let delta := if suspicious then -existing.amount else existing.amount
          if delta != 0 then updatePoints s existing.userId delta else s
        else s
      else s
    if existing.suspicious == suspicious then
      .ok (sPoints, existing)
    else
      let updated := { existing with suspicious := suspicious }
      .ok ({ sPoints with
              transactions := sPoints.transactions.map
                (fun t => if t.id == transactionId then { t with suspicious := suspicious } else t) },
           updated)

/-- The shared response projection of `formatTransaction`
(`src/routes/transactions.js` lines 181–231), restricted to the fields
computable from the transaction row itself (the joined utorid/name fields of
`transactionInclude` are elided).  `none` models an absent JSON field. -/
structure FormattedTransaction where
  id : Nat
  type : TxType
  amount : Option ℤ
  spent : Option ℚ
  promotionIds : List Nat
  suspicious : Bool
  remark : String
  earned : Option ℤ
  redeemed : Option ℤ
  relatedId : Option Nat
  processedById : Option Nat
  sent : Option ℤ
  received : Option ℤ
  awarded : Option ℤ
deriving Repr, DecidableEq

/-- `formatTransaction` from `src/routes/transactions.js` (lines 181–231),
given the row and its joined promotion ids. -/
def formatTransaction (t : Transaction) (promotionIds : List Nat) : FormattedTransaction :=
  let base : FormattedTransaction :=
    { id := t.id
      type := t.type
      amount := some t.amount
      spent := t.spent
      promotionIds := promotionIds.mergeSort (· ≤ ·)
      suspicious := t.suspicious
      remark := t.remark.getD ""
      earned := none
      redeemed := none
      relatedId := none
      processedById := none
      sent := none
      received := none
      awarded := none }
  match t.type with
  | .purchase => { base with earned := some t.amount }
  | .redemption =>
      { base with redeemed := some t.amount.natAbs, processedById := t.processedById,
                  relatedId := t.processedById }
  | .adjustment => { base with relatedId := t.relatedTransactionId }
  | .transfer =>
      let base := { base with relatedId := t.relatedUserId }
      if t.amount < 0 then { base with sent := some t.amount.natAbs }
      else { base with received := some t.amount }
  | .event => { base with relatedId := t.eventId, awarded := some t.amount }

/-!  `src/routes/users_transactions.js`: JS-semantics helpers.

In both POST handlers of that file the local `let validators = [...]` array
shadows the module-level `validators` object, so the closures
`() => validators.xxx(...)` look the validator names up on the *array*.
Arrays expose none of those names, the lookup yields `undefined`, and calling
`undefined` throws a `TypeError`.  Additionally, both `prisma.$transaction`
bodies call `prisma.user.findUnique` without `await`, so the guards compare a
pending promise object (always truthy) and its `undefined` fields (all
comparisons false). -/

/-- Result of invoking one validator thunk. -/
inductive JsCallResult where
  | returns (err : Option String)
  | throwsTypeError
deriving DecidableEq

/-- JS property access followed by a call: look the name up on an object
(modelled as a name ↦ validator map) and invoke it; invoking a missing
property (`undefined`) throws a `TypeError`. -/
def callProp (props : List (String × (Unit → Option String))) (name : String) : JsCallResult :=
  match props.lookup name with
  | some f => .returns (f ())
  | none => .throwsTypeError

/-- The handler-local `validators` array viewed as a property map: a JS array
exposes none of the validator names (`userId`, `type`, `amount`, `remark`). -/
def localValidatorsArrayProps : List (String × (Unit → Option String)) := []

inductive ValidationOutcome where
  | allPassed
  | badRequest (msg : String)
  | thrown
deriving DecidableEq

/-- `validateInputFields` from `src/routes/users_transactions.js`
(lines 55–64): run the thunks in order; a returned message is a 400, a thrown
`TypeError` propagates out of the handler. -/
def validateInputFields : List (Unit → JsCallResult) → ValidationOutcome
  | [] => .allPassed
  | v :: rest =>
    match v () with
    | .throwsTypeError => .thrown
    | .returns (some e) => .badRequest e
    | .returns none => validateInputFields rest

/-- Outcome of a whole route handler: a thrown JS exception carries no store,
matching the fact that the handler never reached (or rolled back) its
`prisma.$transaction`. -/
inductive RouteOutcome (α : Type) where
  | ok (result : α)
  | httpError (status : Nat) (msg : String)
  | thrown
deriving DecidableEq

/-- The un-awaited `findUnique` promise is an object, hence truthy:
`!sender` / `!user` is always false. -/
def promiseIsFalsy : Bool := false

/-- `promise.points < pointAmount`: `undefined < n` is a NaN comparison,
always false. -/
def undefinedLtNum (_ : ℤ) : Bool := false

/-- `promise.verified === false`: `undefined === false` is false. -/
def undefinedStrictEqFalse : Bool := false

/-- The `prisma.$transaction` body of the transfer route
(`src/routes/users_transactions.js` lines 78–155).  The sender guards never
fire (see `promiseIsFalsy`, `undefinedLtNum`, `undefinedStrictEqFalse`); the
`receiver` declaration then reads `receiver` inside its own initializer
(`parseInt(receiver)`), a temporal-dead-zone `ReferenceError`, thrown before
any user update or transaction creation. -/
def transferBody (s : Store) (senderSub : Nat) (pointAmount : ℤ) :
    RouteOutcome (Store × Nat) :=
  if promiseIsFalsy then .httpError 500 "UserId of sender not found"
  else if undefinedLtNum pointAmount then
    .httpError 400 "Sender has insufficient points"
  else if undefinedStrictEqFalse then
    .httpError 403 "Sender cannot send money, they need to be verified first"
  else .thrown

/-- `POST /:userId/transactions` (transfer) from
`src/routes/users_transactions.js` (lines 67–157), past the clearance gate. -/
def transferRoute (s : Store) (senderSub : Nat) (pointAmount : ℤ) :
    RouteOutcome (Store × Nat) :=
  match validateInputFields
      [ fun _ => callProp localValidatorsArrayProps "userId",
        fun _ => callProp localValidatorsArrayProps "type",
        fun _ => callProp localValidatorsArrayProps "amount",
        fun _ => callProp localValidatorsArrayProps "remark" ] with
  | .thrown => .thrown
  | .badRequest m => .httpError 400 ("Bad Request: " ++ m)
  | .allPassed => transferBody s senderSub pointAmount

/-- Response of a successful redemption creation (lines 195–203). -/
structure RedemptionResponse where
  id : Nat
  processedBy : Option Nat
  amount : ℤ
  remark : String
deriving Repr, DecidableEq

/-- The `prisma.$transaction` body of `POST /me/transactions` (redemption
creation, `src/routes/users_transactions.js` lines 169–204).  The `user`
lookup is not awaited, so the not-found, balance and verified guards never
fire; the body creates the pending redemption row (amount `-pointAmount`,
`processedById` unset) and performs no balance update. -/
def redemptionCreateBody (s : Store) (userId : Nat) (pointAmount : ℤ)
    (remark : Option String) : RouteOutcome (Store × RedemptionResponse) :=
  if promiseIsFalsy then .httpError 500 "UserId of self not found"
  else if undefinedLtNum pointAmount then
    .httpError 400 "User has insufficient points"
  else if undefinedStrictEqFalse then
    .httpError 403 "User cannot redeem points, they need to be verified first"
  else
    let tx : Transaction :=
      { id := s.nextTxId
        type := .redemption
        amount := -pointAmount
        spent := none
        suspicious := false
        userId := userId
        createdById := userId
        relatedTransactionId := none
        relatedUserId := none
        eventId := none
        processedById := none
        remark := remark }
    .ok ({ s with transactions := tx :: s.transactions, nextTxId := s.nextTxId + 1 },
         { id := tx.id, processedBy := tx.processedById, amount := pointAmount,
           remark := remark.getD "" })

/-- `POST /me/transactions` (redemption creation) from
`src/routes/users_transactions.js` (lines 160–206), past the clearance gate.
As in the transfer route, the validation closures hit the shadowing local
`validators` array and throw. -/
def redemptionRoute (s : Store) (userSub : Nat) (pointAmount : ℤ)
    (remark : Option String) : RouteOutcome (Store × RedemptionResponse) :=
  match validateInputFields
      [ fun _ => callProp localValidatorsArrayProps "type",
        fun _ => callProp localValidatorsArrayProps "amount",
        fun _ => callProp localValidatorsArrayProps "remark" ] with
  | .thrown => .thrown
  | .badRequest m => .httpError 400 ("Bad Request: " ++ m)
  | .allPassed => redemptionCreateBody s userSub pointAmount remark

/-- Response of a successful mark-processed call (lines 68–77 of
`src/routes/transactions_processed.js`). -/
structure ProcessedResponse where
  id : Nat
  type : TxType
  processedBy : Nat
  redeemed : ℤ
deriving Repr, DecidableEq

/-- The `prisma.$transaction` body of `PATCH /:transactionId/processed` from
`src/routes/transactions_processed.js` (lines 31–78), past the clearance gate
and syntax validation: set `processedById` to the acting cashier and apply the
(negative) stored amount to the owning user's balance.  The
`transaction?.processedById` truthiness test is `isSome` (user ids are ≥ 1). -/
def markProcessedBody (s : Store) (cashierId : Nat) (transactionId : Nat) :
    Except HttpError (Store × ProcessedResponse) :=
  match s.transactions.find? (fun t => t.id == transactionId) with
  | none => .error ⟨404, "Transaction not found"⟩
  | some t =>
    if t.type != .redemption then
      .error ⟨400, "Bad Request: transaction is not of type redemption"⟩
    else if t.processedById.isSome then
      .error ⟨400, "Bad Request: transaction has already been processed"⟩
    else
      let s1 : Store :=
        { s with transactions := s.transactions.map fun tr =>
            if tr.id == transactionId then { tr with processedById := some cashierId } else tr }
      let s2 := updatePoints s1 t.userId t.amount
      .ok (s2, { id := transactionId, type := t.type, processedBy := cashierId,
                 redeemed := -1 * t.amount })

/-- `isManagerOrOrganizer` from `src/routes/events/transactions.js`
(lines 8–14). -/
def isManagerOrOrganizer (s : Store) (role : Role) (sub : Nat) (eventId : Nat) : Bool :=
  decide (roleRank role ≥ 3) ||
    s.eventOrganizers.any (fun o => o.eventId == eventId && o.userId == sub)

/-- Recipient resolution of the event-award route (lines 48–72).  Note the
source filters guest rows by `eventId` (and, for a named recipient, `userId`)
only — it never checks the `confirmed` column, despite its own comments
("Only award to guests with confirmed=true", "Build recipients = confirmed
guests only"). -/
def buildRecipients (s : Store) (eventId : Nat) (utorid : Option String) :
    Except HttpError (List User) :=
  match utorid with
  | some u =>
    match s.users.find? (fun usr => usr.utorid == u) with
    | none => .error ⟨404, "Recipient not found"⟩
    | some usr =>
      if (s.eventGuests.find? (fun g => g.eventId == eventId && g.userId == usr.id)).isSome then
        .ok [usr]
      else .error ⟨400, "User is not a confirmed guest"⟩
  | none =>
    let guests := s.eventGuests.filter (fun g => g.eventId == eventId)
    if guests.isEmpty then .error ⟨400, "No confirmed guests to award"⟩
    else .ok (guests.filterMap (fun g => s.users.find? (fun usr => usr.id == g.userId)))

/-- One iteration of the award loop (lines 92–110): create an event-type
transaction for the recipient and increment their balance. -/
def awardStep (sub : Nat) (eventId : Nat) (amount : ℤ) (remark : Option String)
    (st : Store) (r : User) : Store :=
  let row : Transaction :=
    { id := st.nextTxId
      type := .event
      amount := amount
      spent := none
      suspicious := false
      userId := r.id
      createdById := sub
      relatedTransactionId := none
      relatedUserId := none
      eventId := some eventId
      processedById := none
      remark := remark }
  updatePoints
    { st with transactions := row :: st.transactions, nextTxId := st.nextTxId + 1 }
    r.id amount

/-- `POST /events/:eventId/transactions` from
`src/routes/events/transactions.js` (lines 22–153): the award path after the
`eventId` syntax check. -/
def eventAward (s : Store) (role : Role) (sub : Nat) (eventId : Nat)
    (typeField : Option String) (utorid : Option String) (amount : ℤ)
    (remark : Option String) : Except HttpError (Store × List Nat) :=
  if (match typeField with | some t => t != "event" | none => false) then
    .error ⟨400, "type must be event"⟩
  else if ¬ 0 < amount then .error ⟨400, "amount must be positive integer"⟩
  else if ¬ isManagerOrOrganizer s role sub eventId then
    .error ⟨403, "Forbidden (event transaction)"⟩
  else
    match s.events.find? (fun e => e.id == eventId) with
    | none => .error ⟨404, "Event not found"⟩
    | some event =>
      match buildRecipients s eventId utorid with
      | .error e => .error e
      | .ok recipients =>
        let total := (recipients.length : ℤ) * amount
        if event.pointsRemain < total then
          .error ⟨400, "Insufficient remaining points for this event"⟩
        else
          let s1 := recipients.foldl (awardStep sub eventId amount remark) s
          let s2 : Store :=
            { s1 with events := s1.events.map fun e =>
                if e.id == eventId then
                  { e with pointsRemain := e.pointsRemain - total,
                           pointsAwarded := e.pointsAwarded + total }
                else e }
          .ok (s2, (List.range recipients.length).map (fun i => s.nextTxId + i))

/-! ## Concrete instances (used to exercise the embedding) -/

/-- A regular verified user with 100 points. -/
def aliceU : User :=
  { id := 1, utorid := normalizeUtorid "alice", points := 100, role := .regular,
    verified := true, suspicious := false }

/-- A non-suspicious cashier. -/
def cashierU : User :=
  { id := 2, utorid := normalizeUtorid "cash", points := 0, role := .cashier,
    verified := true, suspicious := false }

/-- A cashier flagged suspicious. -/
def suspCashierU : User :=
  { id := 3, utorid := normalizeUtorid "scash", points := 0, role := .cashier,
    verified := true, suspicious := true }

/-- A store holding only `aliceU`. -/
def baseStore : Store :=
  { users := [aliceU], transactions := [], promotions := [], transactionPromotions := [],
    events := [], eventGuests := [], eventOrganizers := [], nextTxId := 1 }

/-- A flat-bonus automatic promotion active on `[0, 100]`. -/
def promoWindow : Promotion :=
  { id := 1, type := .automatic, startTime := 0, endTime := 100, minSpending := none,
    rate := none, points := some 10 }

def storeWindow : Store :=
  { users := [], transactions := [], promotions := [promoWindow], transactionPromotions := [],
    events := [], eventGuests := [], eventOrganizers := [], nextTxId := 1 }

/-- A one-time flat-bonus promotion. -/
def promoOT : Promotion :=
  { id := 1, type := .onetime, startTime := 0, endTime := 1000, minSpending := none,
    rate := none, points := some 50 }

def storeOT : Store :=
  { users := [aliceU], transactions := [], promotions := [promoOT], transactionPromotions := [],
    events := [], eventGuests := [], eventOrganizers := [], nextTxId := 1 }

/-- A stored suspicious purchase of 40 would-be points owned by `aliceU`. -/
def suspTx : Transaction :=
  { id := 1, type := .purchase, amount := 40, spent := some 10, suspicious := true,
    userId := 1, createdById := 3, relatedTransactionId := none, relatedUserId := none,
    eventId := none, processedById := none, remark := none }

def storeSuspTx : Store :=
  { users := [aliceU], transactions := [suspTx], promotions := [], transactionPromotions := [],
    events := [], eventGuests := [], eventOrganizers := [], nextTxId := 2 }

/-- A pending redemption of 50 points owned by `aliceU`. -/
def redTx : Transaction :=
  { id := 1, type := .redemption, amount := -50, spent := none, suspicious := false,
    userId := 1, createdById := 1, relatedTransactionId := none, relatedUserId := none,
    eventId := none, processedById := none, remark := none }

def storeRedTx : Store :=
  { users := [aliceU], transactions := [redTx], promotions := [], transactionPromotions := [],
    events := [], eventGuests := [], eventOrganizers := [], nextTxId := 2 }

/-- An event with 100 points remaining and one UNCONFIRMED guest row for the
user `guestU`. -/
def guestU : User :=
  { id := 2, utorid := "guest1", points := 0, role := .regular,
    verified := true, suspicious := false }

def eventE : Event := { id := 1, pointsRemain := 100, pointsAwarded := 0 }

def storeEvent : Store :=
  { users := [guestU], transactions := [], promotions := [], transactionPromotions := [],
    events := [eventE], eventGuests := [{ eventId := 1, userId := 2, confirmed := false }],
    eventOrganizers := [], nextTxId := 1 }

/-- Expected post-state of a plain 10.00 purchase for `aliceU` (40 points). -/
def storeAfterPurchase : Store :=
  { users := [{ aliceU with points := 140 }],
    transactions :=
      [{ id := 1, type := .purchase, amount := 40, spent := some 10,
         suspicious := false, userId := 1, createdById := 2, relatedTransactionId := none,
         relatedUserId := none, eventId := none, processedById := none, remark := none }],
    promotions := [], transactionPromotions := [], events := [], eventGuests := [],
    eventOrganizers := [], nextTxId := 2 }

def respPurchase : PurchaseResponse :=
  { id := 1, utorid := normalizeUtorid "alice", spent := 10, earned := 40,
    promotionIds := [], remark := "", createdBy := normalizeUtorid "cash" }

/-- Expected post-state of a 10.00 purchase consuming the one-time `promoOT`
(40 base + 50 flat = 90 points) on `storeOT`. -/
def otTx : Transaction :=
  { id := 1, type := .purchase, amount := 90, spent := some 10, suspicious := false,
    userId := 1, createdById := 2, relatedTransactionId := none, relatedUserId := none,
    eventId := none, processedById := none, remark := none }

def storeAfterOT : Store :=
  { users := [{ aliceU with points := 190 }],
    transactions := [otTx],
    promotions := [promoOT],
    transactionPromotions := [{ transactionId := 1, promotionId := 1 }],
    events := [], eventGuests := [], eventOrganizers := [], nextTxId := 2 }

def respOT : PurchaseResponse :=
  { id := 1, utorid := normalizeUtorid "alice", spent := 10, earned := 90,
    promotionIds := [1], remark := "", createdBy := normalizeUtorid "cash" }

/-! ## Basic lemmas about the embedding -/

theorem jsRound_eq_floor (q : ℚ) : jsRound q = ⌊q + 1/2⌋ := by
  simp [jsRound, Int.floor, FloorRing.floor]
  rfl

theorem jsRound_nonneg {q : ℚ} (h : 0 ≤ q) : 0 ≤ jsRound q := by
  rw [jsRound_eq_floor]
  have : (0:ℚ) ≤ q + 1/2 := by linarith
  exact_mod_cast Int.floor_nonneg.mpr this

theorem computeBaseEarned_nonneg {c : ℤ} (h : 0 ≤ c) : 0 ≤ computeBaseEarned c := by
  apply jsRound_nonneg
  positivity

theorem computeRateBonus_nonneg {c : ℤ} {r : ℚ} (hc : 0 ≤ c) (hr : 0 ≤ r) :
    0 ≤ computeRateBonus c r := by
  apply jsRound_nonneg
  have : (0:ℚ) ≤ (c:ℚ) := by exact_mod_cast hc
  positivity

/-- Updating a user's points is visible through `getPoints` at that id. -/
theorem find?_points_map_update (l : List User) (uid : Nat) (d : ℤ) :
    (((l.map (fun u => if u.id == uid then { u with points := u.points + d } else u)).find?
        (fun u => u.id == uid)).map (·.points))
      = ((l.find? (fun u => u.id == uid)).map (·.points)).map (· + d) := by
  induction l with
  | nil => rfl
  | cons u us ih =>
    by_cases h : u.id = uid
    · simp [List.find?, h]
    · have hb : (u.id == uid) = false := by simp [h]
      simp only [List.map_cons, List.find?]
      rw [if_neg (by simp [h])]
      simp only [hb]
      simpa using ih

theorem getPoints_updatePoints (s : Store) (uid : Nat) (d : ℤ) :
    getPoints (updatePoints s uid d) uid = (getPoints s uid).map (· + d) := by
  simpa [getPoints, updatePoints] using find?_points_map_update s.users uid d

theorem find?_points_map_update_ne (l : List User) (uid uid' : Nat) (d : ℤ) (h : uid' ≠ uid) :
    (((l.map (fun u => if u.id == uid then { u with points := u.points + d } else u)).find?
        (fun u => u.id == uid')).map (·.points))
      = ((l.find? (fun u => u.id == uid')).map (·.points)) := by
  induction l with
  | nil => rfl
  | cons u us ih =>
    simp only [List.map_cons, List.find?]
    by_cases hu : u.id = uid
    · rw [if_pos (by simp [hu])]
      have h2 : (u.id == uid') = false := by simpa [hu] using Ne.symm h
      simp only [h2]
      simpa using ih
    · rw [if_neg (by simp [hu])]
      by_cases hu' : u.id = uid'
      · simp [hu']
      · have h2 : (u.id == uid') = false := by simpa using hu'
        simp only [h2]
        simpa using ih

/-- `updatePoints` touches no other id. -/
theorem getPoints_updatePoints_ne (s : Store) (uid uid' : Nat) (d : ℤ) (h : uid' ≠ uid) :
    getPoints (updatePoints s uid d) uid' = getPoints s uid' := by
  simpa [getPoints, updatePoints] using find?_points_map_update_ne s.users uid uid' d h

/-- In a list with no duplicate ids, `find?` by the id of a member returns
that member. -/
theorem find?_id_of_mem_nodup {l : List User} {t : User} (hmem : t ∈ l)
    (hnd : (l.map User.id).Nodup) : l.find? (fun u => u.id == t.id) = some t := by
  induction l with
  | nil => cases hmem
  | cons u us ih =>
    rcases List.mem_cons.mp hmem with h | h
    · subst h
      simp [List.find?]
    · have hne : u.id ≠ t.id := by
        intro he
        have : t.id ∈ us.map User.id := List.mem_map_of_mem _ h
        rw [← he] at this
        exact (List.nodup_cons.mp (by simpa using hnd)).1 this
      have hrec := ih h (List.nodup_cons.mp (by simpa using hnd)).2
      have hb : (u.id == t.id) = false := by simpa using hne
      simp [List.find?, hb, hrec]

/-- A user found by (normalized) utorid is a member of the list. -/
theorem find?_mem_of_eq {l : List User} {p : User → Bool} {t : User}
    (h : l.find? p = some t) : t ∈ l := List.mem_of_find?_eq_some h

/-- A points update commutes with lookup by utorid (the updater preserves
`utorid`). -/
theorem find?_utorid_map_update (l : List User) (uid : Nat) (d : ℤ) (n : String) :
    ((l.map (fun u => if u.id == uid then { u with points := u.points + d } else u)).find?
        (fun u => u.utorid == n))
      = (l.find? (fun u => u.utorid == n)).map
          (fun u => if u.id == uid then { u with points := u.points + d } else u) := by
  induction l with
  | nil => rfl
  | cons u us ih =>
    simp only [List.map_cons, List.find?]
    have hid : ((if u.id == uid then { u with points := u.points + d } else u) : User).utorid
        = u.utorid := by
      by_cases h : u.id == uid <;> simp [h]
    rw [hid]
    cases hn : (u.utorid == n) with
    | true => simp only [hn, Option.map_some']
    | false =>
      simp only [hn]
      exact ih

/-- A per-id record update commutes with lookup by that id. -/
theorem find?_map_update_tx (l : List Transaction) (tid : Nat) (f : Transaction → Transaction)
    (hf : ∀ t, (f t).id = t.id) :
    ((l.map (fun t => if t.id == tid then f t else t)).find? (fun t => t.id == tid))
      = (l.find? (fun t => t.id == tid)).map f := by
  induction l with
  | nil => rfl
  | cons t ts ih =>
    by_cases ht : t.id = tid
    · have h1 : (t.id == tid) = true := by simpa using ht
      have h2 : ((f t).id == tid) = true := by rw [hf]; exact h1
      simp [List.find?, h1, h2]
    · have h1 : (t.id == tid) = false := by simpa using ht
      have hL : ((if (t.id == tid) = true then f t else t) : Transaction) = t := by simp [h1]
      simp only [List.map_cons, hL]
      rw [List.find?_cons_of_neg _ (by simp [ht]), List.find?_cons_of_neg _ (by simp [ht])]
      exact ih

/-- Successful promotion evaluation resolves exactly the requested ids and
sums the per-promotion bonuses. -/
theorem loadAndValidatePromotions_ok_inv {s : Store} {ids : List Nat} {uid : Nat}
    {c : Option ℤ} {now : ℤ} {promos : List Promotion} {extra : ℤ}
    (h : loadAndValidatePromotions s ids uid c now = .ok (promos, extra)) :
    promos = s.promotions.filter (fun p => ids.contains p.id) ∧
      evalPromos s uid c now promos = .ok extra := by
  simp only [loadAndValidatePromotions] at h
  split at h
  · rename_i hempty
    have hids : ids = [] := List.isEmpty_iff.mp hempty
    subst hids
    simp only [Except.ok.injEq, Prod.mk.injEq] at h
    obtain ⟨h1, h2⟩ := h
    subst h1; subst h2
    simp [evalPromos]
  · split at h
    · exact absurd h (by simp)
    · rename_i hlen
      split at h
      · exact absurd h (by simp)
      · rename_i v hv
        simp only [Except.ok.injEq, Prod.mk.injEq] at h
        obtain ⟨h1, h2⟩ := h
        subst h1; subst h2
        exact ⟨rfl, hv⟩

/-- Bonuses accumulated over valid (nonnegative rate / flat points)
promotions on a nonnegative spending are nonnegative. -/
theorem evalPromos_nonneg {s : Store} {uid : Nat} {c : Option ℤ} {now : ℤ}
    {l : List Promotion} {v : ℤ}
    (hc : ∀ x, c = some x → 0 ≤ x)
    (hl : ∀ p ∈ l, (∀ r, p.rate = some r → 0 ≤ r) ∧ (∀ q, p.points = some q → 0 ≤ q))
    (hv : evalPromos s uid c now l = .ok v) : 0 ≤ v := by
  induction l generalizing v with
  | nil =>
    simp only [evalPromos, Except.ok.injEq] at hv
    omega
  | cons p rest ih =>
    unfold evalPromos at hv
    cases h1 : (decide (p.startTime > now) || decide (p.endTime < now)) with
    | true => simp [h1] at hv
    | false =>
    cases h2 : (p.minSpending.isSome && c.isNone) with
    | true => simp [h1, h2] at hv
    | false =>
    cases h3 : (match p.minSpending, c with
        | some m, some x => decide ((x : ℚ) / 100 < m)
        | _, _ => false) with
    | true => rw [h1, h2] at hv; simp only [Bool.false_eq_true, if_false] at hv; rw [h3] at hv; simp at hv
    | false =>
    cases h4 : (p.type == PromotionType.onetime && promotionUsed s p.id uid) with
    | true => rw [h1, h2] at hv; simp only [Bool.false_eq_true, if_false] at hv; rw [h3] at hv; simp [h4] at hv
    | false =>
      rw [h1, h2] at hv
      simp only [Bool.false_eq_true, if_false] at hv
      rw [h3] at hv
      simp only [Bool.false_eq_true, if_false, h4] at hv
      cases hrec : evalPromos s uid c now rest with
      | error e => rw [hrec] at hv; simp at hv
      | ok acc =>
        rw [hrec] at hv
        simp only [Except.ok.injEq] at hv
        subst hv
        have hrest : 0 ≤ acc := ih (fun q hq => (hl q (List.mem_cons_of_mem _ hq))) hrec
        have hp := hl p (List.mem_cons_self _ _)
        have hrate : 0 ≤ (match p.rate, c with
            | some r, some x => computeRateBonus x r
            | _, _ => (0:ℤ)) := by
          cases hr : p.rate with
          | none => cases c <;> simp
          | some r =>
            cases hcc : c with
            | none => simp
            | some x =>
              simp only
              exact computeRateBonus_nonneg (hc x hcc) (hp.1 r hr)
        have hpts : 0 ≤ p.points.getD 0 := by
          cases hq : p.points with
          | none => simp
          | some q => simpa using hp.2 q hq
        omega

/-- Inversion of a successful purchase creation: all validation steps passed
and the output store/response have the shape written in the handler. -/
theorem handlePurchaseCreation_ok_inv
    {s : Store} {actor : User} {ut : String} {spent : ℚ} {inp : PromoIdsInput}
    {rm : Option String} {now : ℤ} {s' : Store} {resp : PurchaseResponse}
    (h : handlePurchaseCreation s actor ut spent inp rm now = .ok (s', resp)) :
    ∃ (pids : List Nat) (target : User) (promos : List Promotion) (extra : ℤ),
      0 < spent ∧
      normalizePromotionIds inp = .ok pids ∧
      s.users.find? (fun u => u.utorid == normalizeUtorid ut) = some target ∧
      loadAndValidatePromotions s pids target.id (some (jsRound (spent * 100))) now
        = .ok (promos, extra) ∧
      s' = (if !(actor.role == .cashier && actor.suspicious)
                && decide (0 < computeBaseEarned (jsRound (spent * 100)) + extra) then
              updatePoints
                { s with
                  transactions :=
                    { id := s.nextTxId, type := .purchase,
                      amount := computeBaseEarned (jsRound (spent * 100)) + extra,
                      spent := some ((jsRound (spent * 100) : ℚ) / 100),
                      suspicious := actor.role == .cashier && actor.suspicious,
                      userId := target.id, createdById := actor.id,
                      relatedTransactionId := none, relatedUserId := none,
                      eventId := none, processedById := none, remark := rm } :: s.transactions,
                  transactionPromotions :=
                    promos.map (fun p => TransactionPromotion.mk s.nextTxId p.id)
                      ++ s.transactionPromotions,
                  nextTxId := s.nextTxId + 1 }
                target.id (computeBaseEarned (jsRound (spent * 100)) + extra)
            else
              { s with
                transactions :=
                  { id := s.nextTxId, type := .purchase,
                    amount := computeBaseEarned (jsRound (spent * 100)) + extra,
                    spent := some ((jsRound (spent * 100) : ℚ) / 100),
                    suspicious := actor.role == .cashier && actor.suspicious,
                    userId := target.id, createdById := actor.id,
                    relatedTransactionId := none, relatedUserId := none,
                    eventId := none, processedById := none, remark := rm } :: s.transactions,
                transactionPromotions :=
                  promos.map (fun p => TransactionPromotion.mk s.nextTxId p.id)
                    ++ s.transactionPromotions,
                nextTxId := s.nextTxId + 1 }) ∧
      resp = { id := s.nextTxId, utorid := target.utorid,
               spent := (jsRound (spent * 100) : ℚ) / 100,
               earned := if actor.role == .cashier && actor.suspicious then 0
                         else computeBaseEarned (jsRound (spent * 100)) + extra,
               promotionIds := promos.map (·.id), remark := rm.getD "",
               createdBy := actor.utorid } := by
  simp only [handlePurchaseCreation] at h
  split at h
  · exact absurd h (by simp)
  · rename_i hspent
    split at h
    · exact absurd h (by simp)
    · rename_i pids hpids
      split at h
      · exact absurd h (by simp)
      · rename_i target hfind
        split at h
        · exact absurd h (by simp)
        · rename_i pr promos extra hload
          simp only [Except.ok.injEq, Prod.mk.injEq] at h
          refine ⟨pids, target, promos, extra, not_not.mp hspent, hpids, hfind, ?_, ?_, ?_⟩
          · exact hload
          · exact h.1.symm
          · exact h.2.symm

/-- If some promotion in the list is outside the source's (closed) active
window, the evaluation loop fails with a 400 error. -/
theorem evalPromos_window_error (s : Store) (uid : Nat) (c : Option ℤ) (now : ℤ)
    (l : List Promotion) (p : Promotion) (hp : p ∈ l)
    (hw : now < p.startTime ∨ p.endTime < now) :
    ∃ e : HttpError, evalPromos s uid c now l = .error e ∧ e.status = 400 := by
  induction l with
  | nil => cases hp
  | cons q rest ih =>
    rcases List.mem_cons.mp hp with rfl | hmem
    · have hb : (decide (p.startTime > now) || decide (p.endTime < now)) = true := by
        rcases hw with h | h <;> simp [h]
      exact ⟨⟨400, "Promotion is not active"⟩, by simp [evalPromos, hb], rfl⟩
    · cases h1 : (decide (q.startTime > now) || decide (q.endTime < now)) with
      | true => exact ⟨⟨400, "Promotion is not active"⟩, by simp [evalPromos, h1], rfl⟩
      | false =>
        cases h2 : (q.minSpending.isSome && c.isNone) with
        | true =>
          exact ⟨⟨400, "Promotion requires a purchase amount"⟩, by simp [evalPromos, h1, h2], rfl⟩
        | false =>
          cases h3 : (match q.minSpending, c with
              | some m, some x => decide ((x : ℚ) / 100 < m)
              | _, _ => false) with
          | true =>
            refine ⟨⟨400, "Promotion minimum spending not met"⟩, ?_, rfl⟩
            unfold evalPromos
            simp [h1, h2, h3]
          | false =>
            cases h4 : (q.type == PromotionType.onetime && promotionUsed s q.id uid) with
            | true =>
              refine ⟨⟨400, "Promotion already used by this user"⟩, ?_, rfl⟩
              unfold evalPromos
              simp [h1, h2, h3, h4]
            | false =>
              obtain ⟨e, he, hst⟩ := ih hmem
              refine ⟨e, ?_, hst⟩
              unfold evalPromos
              simp [h1, h2, h3, h4, he]

/-- Shape of a flag-changing `setSuspiciousHandler` call: when the stored flag
differs from the requested one, the owner's balance is adjusted by
`±amount` (only when the owner id is non-zero and the amount positive) and the
row's flag is rewritten. -/
theorem setSuspiciousHandler_ok_toggle {s : Store} {tid : Nat} {t : Transaction} {b : Bool}
    (hfind : s.transactions.find? (fun tr => tr.id == tid) = some t)
    (hdiff : t.suspicious ≠ b) :
    setSuspiciousHandler s tid b =
      .ok ({ (if (t.userId != 0 && decide (0 < t.amount)) = true then
                updatePoints s t.userId (if b then -t.amount else t.amount)
              else s) with
             transactions := s.transactions.map
               (fun tr => if tr.id == tid then { tr with suspicious := b } else tr) },
           { t with suspicious := b }) := by
  have hb : (t.suspicious != b) = true := by simpa using hdiff
  have hb2 : (t.suspicious == b) = false := by simpa using hdiff
  unfold setSuspiciousHandler
  rw [hfind]
  simp only [hb, hb2, if_true, Bool.false_eq_true, if_false]
  cases hg : (t.userId != 0 && decide (0 < t.amount)) with
  | true =>
    have hpos : 0 < t.amount := by
      have := (Bool.and_eq_true _ _).mp hg
      simpa using this.2
    have hdelta : ((if b then -t.amount else t.amount) != 0) = true := by
      cases b <;> simp [hpos.ne', hpos.ne]
    simp only [if_pos rfl, hdelta, if_true]
    simp [updatePoints]
  | false =>
    simp only [Bool.false_eq_true, if_false]

/-- Post-state of a successful purchase creation, stated structurally (both
the suspicious and the crediting branch agree on everything but `users`). -/
theorem handlePurchaseCreation_ok_state
    {s : Store} {actor : User} {ut : String} {spent : ℚ} {inp : PromoIdsInput}
    {rm : Option String} {now : ℤ} {s' : Store} {resp : PurchaseResponse}
    (h : handlePurchaseCreation s actor ut spent inp rm now = .ok (s', resp)) :
    ∃ (pids : List Nat) (target : User) (promos : List Promotion) (extra : ℤ),
      0 < spent ∧
      normalizePromotionIds inp = .ok pids ∧
      s.users.find? (fun u => u.utorid == normalizeUtorid ut) = some target ∧
      loadAndValidatePromotions s pids target.id (some (jsRound (spent * 100))) now
        = .ok (promos, extra) ∧
      s'.promotions = s.promotions ∧
      s'.transactionPromotions =
        promos.map (fun q => TransactionPromotion.mk s.nextTxId q.id)
          ++ s.transactionPromotions ∧
      (∃ created : Transaction, s'.transactions = created :: s.transactions ∧
        created.id = s.nextTxId ∧ created.userId = target.id) ∧
      (∃ tgt' : User, s'.users.find? (fun u => u.utorid == normalizeUtorid ut) = some tgt' ∧
        tgt'.id = target.id) := by
  obtain ⟨pids, target, promos, extra, hsp, hpids, hfind, hload, hs', hresp⟩ :=
    handlePurchaseCreation_ok_inv h
  subst hs'
  refine ⟨pids, target, promos, extra, hsp, hpids, hfind, hload, ?_, ?_, ?_, ?_⟩
  · cases h0 : (!(actor.role == Role.cashier && actor.suspicious)
        && decide (0 < computeBaseEarned (jsRound (spent * 100)) + extra)) <;>
      simp [h0, updatePoints]
  · cases h0 : (!(actor.role == Role.cashier && actor.suspicious)
        && decide (0 < computeBaseEarned (jsRound (spent * 100)) + extra)) <;>
      simp [h0, updatePoints]
  · refine
      ⟨{ id := s.nextTxId, type := .purchase,
         amount := computeBaseEarned (jsRound (spent * 100)) + extra,
         spent := some ((jsRound (spent * 100) : ℚ) / 100),
         suspicious := actor.role == .cashier && actor.suspicious,
         userId := target.id, createdById := actor.id,
         relatedTransactionId := none, relatedUserId := none,
         eventId := none, processedById := none, remark := rm }, ?_, rfl, rfl⟩
    cases h0 : (!(actor.role == Role.cashier && actor.suspicious)
        && decide (0 < computeBaseEarned (jsRound (spent * 100)) + extra)) <;>
      simp [h0, updatePoints]
  · cases h0 : (!(actor.role == Role.cashier && actor.suspicious)
        && decide (0 < computeBaseEarned (jsRound (spent * 100)) + extra)) with
    | true =>
      simp only [h0, if_true, updatePoints]
      refine
        ⟨if target.id == target.id then
           { target with
             points := target.points + (computeBaseEarned (jsRound (spent * 100)) + extra) }
         else target, ?_, ?_⟩
      · rw [find?_utorid_map_update s.users target.id
          (computeBaseEarned (jsRound (spent * 100)) + extra) (normalizeUtorid ut), hfind]
        rfl
      · simp
    | false =>
      simp only [h0, Bool.false_eq_true, if_false]
      exact ⟨target, hfind, rfl⟩

/-- An error from the Promotion Evaluator propagates out of the purchase
handler unchanged. -/
theorem handlePurchaseCreation_load_error
    {s : Store} {actor : User} {ut : String} {spent : ℚ} {inp : PromoIdsInput}
    {rm : Option String} {now : ℤ} {pids : List Nat} {tgt : User} {e : HttpError}
    (hsp : 0 < spent)
    (hpids : normalizePromotionIds inp = .ok pids)
    (hfind : s.users.find? (fun u => u.utorid == normalizeUtorid ut) = some tgt)
    (hload : loadAndValidatePromotions s pids tgt.id (some (jsRound (spent * 100))) now
      = .error e) :
    handlePurchaseCreation s actor ut spent inp rm now = .error e := by
  unfold handlePurchaseCreation
  rw [if_neg (not_not_intro hsp), hpids]
  simp only
  rw [hfind]
  simp only
  rw [hload]

/-- A one-time promotion already consumed by the user makes the evaluator
fail with the "already used" 400 error (the other checks passing). -/
theorem loadAndValidatePromotions_onetime_used
    {s2 : Store} {p : Promotion} {uid : Nat} {c2 : ℤ} {now2 : ℤ}
    (hfilter : s2.promotions.filter (fun q => [p.id].contains q.id) = [p])
    (hone : p.type = .onetime)
    (hused : promotionUsed s2 p.id uid = true)
    (hwin : (decide (p.startTime > now2) || decide (p.endTime < now2)) = false)
    (hminb : (match p.minSpending, (some c2 : Option ℤ) with
        | some m, some c => decide ((c : ℚ) / 100 < m)
        | _, _ => false) = false) :
    loadAndValidatePromotions s2 [p.id] uid (some c2) now2
      = .error ⟨400, "Promotion already used by this user"⟩ := by
  unfold loadAndValidatePromotions
  rw [show (([p.id] : List Nat).isEmpty) = false from rfl]
  simp only [Bool.false_eq_true, if_false]
  rw [hfilter]
  rw [show (([p] : List Promotion).length != ([p.id] : List Nat).length) = false from rfl]
  simp only [Bool.false_eq_true, if_false]
  have hev : evalPromos s2 uid (some c2) now2 [p]
      = .error ⟨400, "Promotion already used by this user"⟩ := by
    unfold evalPromos
    rw [hwin]
    simp only [Bool.false_eq_true, if_false]
    rw [show (p.minSpending.isSome && (some c2 : Option ℤ).isNone) = false by simp]
    simp only [Bool.false_eq_true, if_false]
    rw [hminb]
    simp only [Bool.false_eq_true, if_false]
    rw [show (p.type == PromotionType.onetime && promotionUsed s2 p.id uid) = true by
      simp [hone, hused]]
    simp only [if_true]
  rw [hev]

/-! ## Claims -/

/-- C10: for every request, both the transfer-creation handler and the
redemption-creation handler of `users_transactions.js` throw during input
validation — their validation closures hit the local `validators` array that
shadows the module-level validator object — so neither route ever reaches its
`prisma.$transaction`: no user balance is mutated and no transaction row is
created (a thrown outcome carries no store). -/
theorem users_transactions_routes_throw_before_any_write :
    ∀ (s : Store) (senderSub : Nat) (amt : ℤ) (userSub : Nat) (amt2 : ℤ)
      (rm : Option String),
      transferRoute s senderSub amt = .thrown ∧
      redemptionRoute s userSub amt2 rm = .thrown := by
  intro s senderSub amt userSub amt2 rm
  exact ⟨rfl, rfl⟩

/-- C8 (code evaluated at the failing input): `normalizePromotionIds` maps
`null` and the empty array to the empty id list — and the evaluator then
returns zero extra points — but an *absent* field (`undefined`) is rejected
with a 400 error, because the source only tests `promotionIds === null`. -/
theorem normalizePromotionIds_absent_vs_empty :
    normalizePromotionIds .undef = .error ⟨400, "promotionIds must be an array"⟩ ∧
    normalizePromotionIds .null = .ok [] ∧
    normalizePromotionIds (.arr []) = .ok [] ∧
    (∀ (s : Store) (uid : Nat) (c : Option ℤ) (now : ℤ),
      loadAndValidatePromotions s [] uid c now = .ok ([], 0)) := by
  exact ⟨rfl, rfl, rfl, fun s uid c now => rfl⟩

/-- C7 counterexample: a promotion whose `endTime` equals `now` is *accepted*
by the evaluator (the source rejects only `endTime < now`), contradicting the
claimed half-open window `[startTime, endTime)`. -/
theorem promotion_at_endTime_accepted :
    promoWindow.endTime ≤ 100 ∧
    loadAndValidatePromotions storeWindow [1] 7 none 100 = .ok ([promoWindow], 10) := by
  exact ⟨by decide, rfl⟩

/-- C7 (amended): the evaluator fails with a 400 (InvalidState) error whenever
`now` lies outside the *closed* window `[startTime, endTime]`: a promotion with
`startTime` in the future or `endTime` strictly in the past is rejected
regardless of its other fields; `now = endTime` is accepted. -/
theorem promotion_outside_closed_window_rejected
    (s : Store) (ids : List Nat) (userId : Nat) (c : Option ℤ) (now : ℤ) (p : Promotion)
    (hmem : p ∈ s.promotions.filter (fun q => ids.contains q.id))
    (hlen : (s.promotions.filter (fun q => ids.contains q.id)).length = ids.length)
    (hw : now < p.startTime ∨ p.endTime < now) :
    ∃ e : HttpError, loadAndValidatePromotions s ids userId c now = .error e ∧
      e.status = 400 := by
  have hne : ids.isEmpty = false := by
    cases hids : ids with
    | nil =>
      subst hids
      simp at hmem
    | cons a t => rfl
  obtain ⟨e, he, hst⟩ := evalPromos_window_error s userId c now _ p hmem hw
  refine ⟨e, ?_, hst⟩
  have hbne : (((s.promotions.filter (fun q => ids.contains q.id)).length != ids.length))
      = false := by rw [hlen]; simp
  simp only [loadAndValidatePromotions, hne, Bool.false_eq_true, if_false, hbne, he]

/-- C7 witness: a promotion expired one tick ago is rejected with a 400. -/
theorem promotion_outside_closed_window_rejected_witness :
    ∃ e : HttpError, loadAndValidatePromotions storeWindow [1] 7 none 101 = .error e ∧
      e.status = 400 :=
  promotion_outside_closed_window_rejected storeWindow [1] 7 none 101 promoWindow
    (by decide) (by decide) (by decide)

/-- C6 (code evaluated at the failing input): a sender with 5 points asking to
transfer 10 does not get the insufficient-balance 400 — the route throws a
`TypeError` during validation (shadowed `validators`), and the balance guard
itself (`sender.points < amount` against an un-awaited promise) is constant
false, so the check can never fire; no store is produced (no writes). -/
theorem transfer_insufficient_balance_check_unreachable :
    getPoints baseStore 1 = some 100 ∧
    (100 : ℤ) < 1000 ∧
    transferRoute baseStore 1 1000 = .thrown ∧
    (∀ amt : ℤ, undefinedLtNum amt = false) := by
  exact ⟨by decide, by decide, rfl, fun _ => rfl⟩

/-- C5 (code evaluated at the failing input): `storeEvent` records user 2 as
an event guest with `confirmed := false`, yet the award succeeds and credits
the 10 points — the source never filters on the `confirmed` column, despite
its own comments saying only confirmed guests may be awarded. -/
theorem event_award_ignores_confirmed_flag :
    storeEvent.eventGuests = [{ eventId := 1, userId := 2, confirmed := false }] ∧
    getPoints storeEvent 2 = some 0 ∧
    eventAward storeEvent .manager 9 1 (some "event") (some "guest1") 10 none =
      .ok ({ users := [{ id := 2, utorid := "guest1", points := 10, role := .regular,
                         verified := true, suspicious := false }],
             transactions := [{ id := 1, type := .event, amount := 10, spent := none,
                                suspicious := false, userId := 2, createdById := 9,
                                relatedTransactionId := none, relatedUserId := none,
                                eventId := some 1, processedById := none, remark := none }],
             promotions := [], transactionPromotions := [],
             events := [{ id := 1, pointsRemain := 90, pointsAwarded := 10 }],
             eventGuests := [{ eventId := 1, userId := 2, confirmed := false }],
             eventOrganizers := [], nextTxId := 2 }, [1]) := by
  refine ⟨rfl, by decide, ?_⟩
  rfl

/-- C9: for a purchase stored with `suspicious = true` the two read paths
disagree on `earned`: the creation response reports `earned = 0`, while the
shared `formatTransaction` projection used by the GET endpoints reports
`earned` equal to the stored `amount` (the would-be accrual) regardless of
the suspicious flag. -/
theorem suspicious_purchase_earned_disagreement :
    (∀ (s : Store) (actor : User) (ut : String) (spent : ℚ) (inp : PromoIdsInput)
        (rm : Option String) (now : ℤ) (s' : Store) (resp : PurchaseResponse),
        actor.role = .cashier → actor.suspicious = true →
        handlePurchaseCreation s actor ut spent inp rm now = .ok (s', resp) →
        resp.earned = 0) ∧
    (∀ (t : Transaction) (pids : List Nat), t.type = .purchase →
        (formatTransaction t pids).earned = some t.amount) := by
  constructor
  · intro s actor ut spent inp rm now s' resp hrole hsusp hok
    obtain ⟨pids, target, promos, extra, _, _, _, _, _, hresp⟩ :=
      handlePurchaseCreation_ok_inv hok
    subst hresp
    simp [hrole, hsusp]
  · intro t pids ht
    simp [formatTransaction, ht]

/-- C9 witness: a suspicious cashier's 10.00 purchase for `aliceU` yields a
creation response with `earned = 0`, while the formatter reports the stored
40-point accrual. -/
theorem suspicious_purchase_earned_disagreement_witness :
    ({ id := 1, utorid := normalizeUtorid "alice", spent := 10, earned := 0,
       promotionIds := [], remark := "", createdBy := normalizeUtorid "scash" }
        : PurchaseResponse).earned = 0 ∧
    (formatTransaction suspTx []).earned = some 40 := by
  constructor
  · have e1 : jsRound ((10:ℚ) * 100) = 1000 := by norm_num [jsRound, Rat.floor]
    have e2 : computeBaseEarned 1000 = 40 := by norm_num [computeBaseEarned, jsRound, Rat.floor]
    have e3 : ((1000:ℤ):ℚ)/100 = 10 := by norm_num
    refine suspicious_purchase_earned_disagreement.1 baseStore suspCashierU "alice" 10 .null
      none 0 storeSuspTx _ rfl rfl ?_
    simp only [handlePurchaseCreation, normalizePromotionIds, e1, e2, e3]
    norm_num [baseStore, aliceU, suspCashierU, storeSuspTx, suspTx, List.find?,
      loadAndValidatePromotions, e1, e2, e3]
  · exact suspicious_purchase_earned_disagreement.2 suspTx [] rfl

/-- C2: (a) creating a suspicious purchase leaves every user's points
unchanged; (b) updating the suspicious flag to its current value is a no-op;
(c) flipping a suspicious transaction (with the nonnegative amount of a
purchase and a real owner id) to non-suspicious credits the owner exactly the
stored amount; (d) toggling true→false→true leaves every balance unchanged. -/
theorem suspicious_flag_reconciler_spec :
    (∀ (s : Store) (actor : User) (ut : String) (spent : ℚ) (inp : PromoIdsInput)
        (rm : Option String) (now : ℤ) (s' : Store) (resp : PurchaseResponse),
        actor.role = .cashier → actor.suspicious = true →
        handlePurchaseCreation s actor ut spent inp rm now = .ok (s', resp) →
        ∀ uid, getPoints s' uid = getPoints s uid) ∧
    (∀ (s : Store) (tid : Nat) (t : Transaction) (b : Bool),
        s.transactions.find? (fun tr => tr.id == tid) = some t → t.suspicious = b →
        setSuspiciousHandler s tid b = .ok (s, t)) ∧
    (∀ (s : Store) (tid : Nat) (t : Transaction),
        s.transactions.find? (fun tr => tr.id == tid) = some t →
        t.suspicious = true → 0 ≤ t.amount → t.userId ≠ 0 →
        ∃ s' t', setSuspiciousHandler s tid false = .ok (s', t') ∧
          getPoints s' t.userId = (getPoints s t.userId).map (· + t.amount)) ∧
    (∀ (s : Store) (tid : Nat) (t : Transaction) (s1 : Store) (t1 : Transaction)
        (s2 : Store) (t2 : Transaction),
        s.transactions.find? (fun tr => tr.id == tid) = some t → t.suspicious = true →
        setSuspiciousHandler s tid false = .ok (s1, t1) →
        setSuspiciousHandler s1 tid true = .ok (s2, t2) →
        ∀ uid, getPoints s2 uid = getPoints s uid) := by
  refine ⟨?_, ?_, ?_, ?_⟩
  · intro s actor ut spent inp rm now s' resp hrole hsusp hok uid
    obtain ⟨pids, target, promos, extra, _, _, _, _, hs', _⟩ :=
      handlePurchaseCreation_ok_inv hok
    subst hs'
    simp [getPoints, hrole, hsusp]
  · intro s tid t b hfind hflag
    simp [setSuspiciousHandler, hfind, hflag]
  · intro s tid t hfind hsusp hamt huid
    have hdiff : t.suspicious ≠ false := by simp [hsusp]
    refine ⟨_, _, setSuspiciousHandler_ok_toggle hfind hdiff, ?_⟩
    cases hg : (t.userId != 0 && decide (0 < t.amount)) with
    | true =>
      have : getPoints (updatePoints s t.userId (if false then -t.amount else t.amount))
          t.userId = (getPoints s t.userId).map (· + t.amount) := by
        simpa using getPoints_updatePoints s t.userId t.amount
      simpa [getPoints, hg] using this
    | false =>
      have hz : t.amount = 0 := by
        rcases Bool.and_eq_false_iff.mp hg with h | h
        · exact absurd (by simpa using h) huid
        · have hnp : ¬ 0 < t.amount := by simpa using h
          omega
      simp [getPoints, hg, hz]
      cases s.users.find? (fun u => u.id == t.userId) <;> simp
  · intro s tid t s1 t1 s2 t2 hfind hsusp h1 h2 uid
    have hdiff1 : t.suspicious ≠ false := by simp [hsusp]
    rw [setSuspiciousHandler_ok_toggle hfind hdiff1] at h1
    have hs1 : s1 = { (if (t.userId != 0 && decide (0 < t.amount)) = true then
                updatePoints s t.userId t.amount
              else s) with
             transactions := s.transactions.map
               (fun tr => if tr.id == tid then { tr with suspicious := false } else tr) } := by
      simp only [Except.ok.injEq, Prod.mk.injEq] at h1
      simpa using h1.1.symm
    have hfind1 : s1.transactions.find? (fun tr => tr.id == tid)
        = some { t with suspicious := false } := by
      rw [hs1]
      simp only
      rw [find?_map_update_tx s.transactions tid
        (fun tr => { tr with suspicious := false }) (fun _ => rfl), hfind]
      rfl
    have hdiff2 : ({ t with suspicious := false } : Transaction).suspicious ≠ true := by simp
    rw [setSuspiciousHandler_ok_toggle hfind1 hdiff2] at h2
    have hs2 : s2 = { (if (t.userId != 0 && decide (0 < t.amount)) = true then
                updatePoints s1 t.userId (-t.amount)
              else s1) with
             transactions := s1.transactions.map
               (fun tr => if tr.id == tid then { tr with suspicious := true } else tr) } := by
      simp only [Except.ok.injEq, Prod.mk.injEq] at h2
      simpa using h2.1.symm
    cases hg : (t.userId != 0 && decide (0 < t.amount)) with
    | true =>
      have hu1 : s1.users = (updatePoints s t.userId t.amount).users := by
        rw [hs1]; simp [hg]
      have hu2 : s2.users = (updatePoints s1 t.userId (-t.amount)).users := by
        rw [hs2]; simp [hg]
      by_cases huid : uid = t.userId
      · rw [huid]
        have e2 : getPoints s2 t.userId = (getPoints s1 t.userId).map (· + (-t.amount)) := by
          have := getPoints_updatePoints s1 t.userId (-t.amount)
          simpa [getPoints, hu2] using this
        have e1 : getPoints s1 t.userId = (getPoints s t.userId).map (· + t.amount) := by
          have := getPoints_updatePoints s t.userId t.amount
          simpa [getPoints, hu1] using this
        rw [e2, e1]
        cases s.users.find? (fun u => u.id == t.userId) <;> simp
      · have e2 : getPoints s2 uid = getPoints s1 uid := by
          have := getPoints_updatePoints_ne s1 t.userId uid (-t.amount) huid
          simpa [getPoints, hu2] using this
        have e1 : getPoints s1 uid = getPoints s uid := by
          have := getPoints_updatePoints_ne s t.userId uid t.amount huid
          simpa [getPoints, hu1] using this
        rw [e2, e1]
    | false =>
      have hu1 : s1.users = s.users := by rw [hs1]; simp [hg]
      have hu2 : s2.users = s1.users := by rw [hs2]; simp [hg]
      simp [getPoints, hu2, hu1]

/-- C2 witness: on the stored suspicious 40-point purchase of `aliceU`,
re-sending `suspicious = true` is a no-op, and flipping to `false` credits
exactly the stored 40 points. -/
theorem suspicious_flag_reconciler_spec_witness :
    setSuspiciousHandler storeSuspTx 1 true = .ok (storeSuspTx, suspTx) ∧
    (∃ s' t', setSuspiciousHandler storeSuspTx 1 false = .ok (s', t') ∧
      getPoints s' suspTx.userId
        = (getPoints storeSuspTx suspTx.userId).map (· + suspTx.amount)) :=
  ⟨suspicious_flag_reconciler_spec.2.1 storeSuspTx 1 suspTx true (by decide) rfl,
   suspicious_flag_reconciler_spec.2.2.1 storeSuspTx 1 suspTx (by decide) rfl
     (by decide) (by decide)⟩

/-- Semantics of the redemption `$transaction` body and of the mark-processed
handler (the creation body is unreachable through its route, which throws in
validation — see the C4 and C10 theorems): the body would only append a
pending row (`amount = -amt`, `processedById = null`) with no balance change;
mark-processed sets `processedById` to the acting cashier and applies the
stored negative amount exactly once, failing (404 absent, 400 wrong type or
already processed) without any state output otherwise. -/
theorem redemption_debit_deferred_to_processing :
    (∀ (s : Store) (uid : Nat) (amt : ℤ) (rm : Option String),
      redemptionCreateBody s uid amt rm =
        .ok ({ s with
               transactions :=
                 ({ id := s.nextTxId, type := .redemption, amount := -amt, spent := none,
                    suspicious := false, userId := uid, createdById := uid,
                    relatedTransactionId := none, relatedUserId := none, eventId := none,
                    processedById := none, remark := rm } : Transaction) :: s.transactions,
               nextTxId := s.nextTxId + 1 },
             { id := s.nextTxId, processedBy := none, amount := amt,
               remark := rm.getD "" })) ∧
    (∀ (s : Store) (uid : Nat) (amt : ℤ) (rm : Option String) (s' : Store)
        (resp : RedemptionResponse),
      redemptionCreateBody s uid amt rm = .ok (s', resp) →
      ∀ u, getPoints s' u = getPoints s u) ∧
    (∀ (s : Store) (cid tid : Nat) (t : Transaction),
      s.transactions.find? (fun tr => tr.id == tid) = some t →
      t.type = .redemption → t.processedById = none →
      ∃ s' resp, markProcessedBody s cid tid = .ok (s', resp) ∧
        s'.transactions.find? (fun tr => tr.id == tid)
          = some { t with processedById := some cid } ∧
        getPoints s' t.userId = (getPoints s t.userId).map (· + t.amount) ∧
        (∀ cid2, markProcessedBody s' cid2 tid =
          .error ⟨400, "Bad Request: transaction has already been processed"⟩)) ∧
    (∀ (s : Store) (cid tid : Nat),
      s.transactions.find? (fun tr => tr.id == tid) = none →
      markProcessedBody s cid tid = .error ⟨404, "Transaction not found"⟩) ∧
    (∀ (s : Store) (cid tid : Nat) (t : Transaction),
      s.transactions.find? (fun tr => tr.id == tid) = some t →
      (t.type ≠ .redemption →
        markProcessedBody s cid tid =
          .error ⟨400, "Bad Request: transaction is not of type redemption"⟩) ∧
      (t.type = .redemption → t.processedById.isSome →
        markProcessedBody s cid tid =
          .error ⟨400, "Bad Request: transaction has already been processed"⟩)) := by
  refine ⟨fun s uid amt rm => rfl, ?_, ?_, ?_, ?_⟩
  · intro s uid amt rm s' resp h
    have h' := h
    rw [(rfl : redemptionCreateBody s uid amt rm = redemptionCreateBody s uid amt rm)] at h'
    simp only [redemptionCreateBody, promiseIsFalsy, undefinedLtNum, undefinedStrictEqFalse,
      Bool.false_eq_true, if_false, RouteOutcome.ok.injEq, Prod.mk.injEq] at h'
    intro u
    rw [← h'.1]
    simp [getPoints]
  · intro s cid tid t hfind htype hpid
    have hne : (t.type != TxType.redemption) = false := by simp [htype]
    have hsome : t.processedById.isSome = false := by simp [hpid]
    have hfind' : ((s.transactions.map fun tr =>
        if tr.id == tid then { tr with processedById := some cid } else tr).find?
          (fun tr => tr.id == tid)) = some { t with processedById := some cid } := by
      rw [find?_map_update_tx s.transactions tid
        (fun tr => { tr with processedById := some cid }) (fun _ => rfl), hfind]
      rfl
    refine ⟨updatePoints
        { s with transactions := s.transactions.map fun tr =>
            if tr.id == tid then { tr with processedById := some cid } else tr }
        t.userId t.amount,
      { id := tid, type := t.type, processedBy := cid, redeemed := -1 * t.amount },
      ?_, ?_, ?_, ?_⟩
    · unfold markProcessedBody
      rw [hfind]
      simp only [hne, Bool.false_eq_true, if_false, hsome]
    · simpa [updatePoints] using hfind'
    · have := getPoints_updatePoints
        { s with transactions := s.transactions.map fun tr =>
            if tr.id == tid then { tr with processedById := some cid } else tr }
        t.userId t.amount
      simpa [getPoints, updatePoints] using this
    · intro cid2
      unfold markProcessedBody
      rw [show ((updatePoints { s with transactions := s.transactions.map fun tr =>
          if tr.id == tid then { tr with processedById := some cid } else tr }
            t.userId t.amount).transactions.find? (fun tr => tr.id == tid))
          = some { t with processedById := some cid } by
        simpa [updatePoints] using hfind']
      simp [hne, htype]
  · intro s cid tid hfind
    unfold markProcessedBody
    rw [hfind]
  · intro s cid tid t hfind
    constructor
    · intro hne
      unfold markProcessedBody
      rw [hfind]
      have hb : (t.type != TxType.redemption) = true := by simpa using hne
      simp only [hb, if_true]
    · intro htype hsome
      unfold markProcessedBody
      rw [hfind]
      simp only [show (t.type != TxType.redemption) = false by simp [htype],
        Bool.false_eq_true, if_false, hsome, if_true]

/-- Concrete instance of `redemption_debit_deferred_to_processing`: marking
the stored pending 50-point redemption of `aliceU` processed by cashier 2
debits exactly 50 points and stamps `processedById`; the creation body run on
`baseStore` changes no balance. -/
theorem redemption_debit_deferred_to_processing_witness :
    (∃ s' resp, markProcessedBody storeRedTx 2 1 = .ok (s', resp) ∧
      s'.transactions.find? (fun tr => tr.id == 1)
        = some { redTx with processedById := some 2 } ∧
      getPoints s' redTx.userId = (getPoints storeRedTx redTx.userId).map (· + redTx.amount) ∧
      (∀ cid2, markProcessedBody s' cid2 1 =
        .error ⟨400, "Bad Request: transaction has already been processed"⟩)) ∧
    (∀ u, getPoints
        ({ baseStore with
           transactions :=
             ({ id := 1, type := .redemption, amount := -50, spent := none,
                suspicious := false, userId := 1, createdById := 1,
                relatedTransactionId := none, relatedUserId := none, eventId := none,
                processedById := none, remark := none } : Transaction) :: baseStore.transactions,
           nextTxId := 2 }) u = getPoints baseStore u) :=
  ⟨redemption_debit_deferred_to_processing.2.2.1 storeRedTx 2 1 redTx (by decide) rfl rfl,
   redemption_debit_deferred_to_processing.2.1 baseStore 1 50 none _ _
     (redemption_debit_deferred_to_processing.1 baseStore 1 50 none)⟩

/-- C1: a purchase created with positive spending by a non-suspicious actor
and a valid promotion list stores a transaction whose `amount` is
`round(spentCents/25) + extraPoints` (with `spentCents = round(spent*100)` and
`extraPoints` the Promotion Evaluator's result), reports that amount as
`earned`, and credits the target exactly that amount. -/
theorem purchase_credits_base_plus_bonus
    (s : Store) (actor : User) (ut : String) (spent : ℚ) (inp : PromoIdsInput)
    (rm : Option String) (now : ℤ) (s' : Store) (resp : PurchaseResponse)
    (hok : handlePurchaseCreation s actor ut spent inp rm now = .ok (s', resp))
    (hns : ¬ (actor.role = .cashier ∧ actor.suspicious = true))
    (hprom : ∀ p ∈ s.promotions,
      (∀ r, p.rate = some r → 0 ≤ r) ∧ (∀ q, p.points = some q → 0 ≤ q))
    (hids : (s.users.map User.id).Nodup) :
    ∃ (pids : List Nat) (target : User) (promos : List Promotion) (extra : ℤ)
      (created : Transaction),
      s.users.find? (fun u => u.utorid == normalizeUtorid ut) = some target ∧
      normalizePromotionIds inp = .ok pids ∧
      loadAndValidatePromotions s pids target.id (some (jsRound (spent * 100))) now
        = .ok (promos, extra) ∧
      s'.transactions = created :: s.transactions ∧
      created.amount = computeBaseEarned (jsRound (spent * 100)) + extra ∧
      resp.earned = created.amount ∧
      getPoints s target.id = some target.points ∧
      getPoints s' target.id = some (target.points + created.amount) := by
  obtain ⟨pids, target, promos, extra, hsp, hpids, hfind, hload, hs', hresp⟩ :=
    handlePurchaseCreation_ok_inv hok
  have hsusp : (actor.role == Role.cashier && actor.suspicious) = false := by
    by_cases h : actor.role = .cashier
    · have hbs : actor.suspicious = false := by
        cases hb : actor.suspicious
        · rfl
        · exact absurd ⟨h, hb⟩ hns
      simp [h, hbs]
    · have : (actor.role == Role.cashier) = false := by simpa using h
      simp [this]
  obtain ⟨hpromos, heval⟩ := loadAndValidatePromotions_ok_inv hload
  have hcents : 0 ≤ jsRound (spent * 100) := jsRound_nonneg (by positivity)
  have hextra : 0 ≤ extra := by
    refine evalPromos_nonneg (fun x hx => ?_) (fun p hp => hprom p ?_) heval
    · injection hx with hx'
      omega
    · rw [hpromos] at hp
      exact (List.mem_filter.mp hp).1
  have hbase := computeBaseEarned_nonneg hcents
  have hmem := List.mem_of_find?_eq_some hfind
  have hfid := find?_id_of_mem_nodup hmem hids
  have hgp : getPoints s target.id = some target.points := by simp [getPoints, hfid]
  refine ⟨pids, target, promos, extra,
    { id := s.nextTxId, type := .purchase,
      amount := computeBaseEarned (jsRound (spent * 100)) + extra,
      spent := some ((jsRound (spent * 100) : ℚ) / 100),
      suspicious := actor.role == .cashier && actor.suspicious,
      userId := target.id, createdById := actor.id,
      relatedTransactionId := none, relatedUserId := none,
      eventId := none, processedById := none, remark := rm },
    hfind, hpids, hload, ?_, rfl, ?_, hgp, ?_⟩
  · rw [hs']
    cases h0 : (!(actor.role == Role.cashier && actor.suspicious)
        && decide (0 < computeBaseEarned (jsRound (spent * 100)) + extra)) <;>
      simp [h0, updatePoints]
  · rw [hresp]
    simp [hsusp]
  · rw [hs', hsusp]
    simp only [Bool.not_false, Bool.true_and]
    cases h0 : decide (0 < computeBaseEarned (jsRound (spent * 100)) + extra) with
    | true =>
      simp only [if_true]
      have hupd := getPoints_updatePoints
        { s with
          transactions :=
            { id := s.nextTxId, type := .purchase,
              amount := computeBaseEarned (jsRound (spent * 100)) + extra,
              spent := some ((jsRound (spent * 100) : ℚ) / 100),
              suspicious := actor.role == .cashier && actor.suspicious,
              userId := target.id, createdById := actor.id,
              relatedTransactionId := none, relatedUserId := none,
              eventId := none, processedById := none, remark := rm } :: s.transactions,
          transactionPromotions :=
            promos.map (fun p => TransactionPromotion.mk s.nextTxId p.id)
              ++ s.transactionPromotions,
          nextTxId := s.nextTxId + 1 }
        target.id (computeBaseEarned (jsRound (spent * 100)) + extra)
      rw [show getPoints { s with
          transactions :=
            { id := s.nextTxId, type := .purchase,
              amount := computeBaseEarned (jsRound (spent * 100)) + extra,
              spent := some ((jsRound (spent * 100) : ℚ) / 100),
              suspicious := actor.role == .cashier && actor.suspicious,
              userId := target.id, createdById := actor.id,
              relatedTransactionId := none, relatedUserId := none,
              eventId := none, processedById := none, remark := rm } :: s.transactions,
          transactionPromotions :=
            promos.map (fun p => TransactionPromotion.mk s.nextTxId p.id)
              ++ s.transactionPromotions,
          nextTxId := s.nextTxId + 1 } target.id = some target.points from by
        simpa [getPoints] using hgp] at hupd
      simpa using hupd
    | false =>
      simp only [Bool.false_eq_true, if_false]
      have hz : computeBaseEarned (jsRound (spent * 100)) + extra = 0 := by
        have := of_decide_eq_false h0
        omega
      rw [hz]
      simpa [getPoints, hz] using hgp

/-- C3: a one-time promotion is consumable at most once per user: after a
purchase by `ut` consuming one-time promotion `p` succeeds, the created
`TransactionPromotion` join record — reachable from that user's transactions —
makes `promotionUsed` true, and a second otherwise-valid purchase by the same
user naming the same promotion id fails with the 400 "already used" error. -/
theorem onetime_promotion_single_use
    (s : Store) (actor actor2 : User) (ut : String) (spent spent2 : ℚ)
    (inp inp2 : PromoIdsInput) (rm rm2 : Option String) (now now2 : ℤ)
    (s1 : Store) (resp : PurchaseResponse) (p : Promotion)
    (hnorm : normalizePromotionIds inp = .ok [p.id])
    (hnorm2 : normalizePromotionIds inp2 = .ok [p.id])
    (hfilter : s.promotions.filter (fun q => [p.id].contains q.id) = [p])
    (hone : p.type = .onetime)
    (hok : handlePurchaseCreation s actor ut spent inp rm now = .ok (s1, resp))
    (hspent2 : 0 < spent2)
    (hactive2 : ¬ (now2 < p.startTime ∨ p.endTime < now2))
    (hmin2 : ∀ m, p.minSpending = some m → ¬ ((jsRound (spent2 * 100) : ℚ) / 100 < m)) :
    ∃ target : User,
      s.users.find? (fun u => u.utorid == normalizeUtorid ut) = some target ∧
      promotionUsed s1 p.id target.id = true ∧
      handlePurchaseCreation s1 actor2 ut spent2 inp2 rm2 now2 =
        .error ⟨400, "Promotion already used by this user"⟩ := by
  obtain ⟨pids, target, promos, extra, hsp, hpids, hfind, hload, hpromo_eq, htp_eq,
    ⟨created, htx_eq, hcid, hcuid⟩, ⟨tgt', hfind', htid⟩⟩ :=
    handlePurchaseCreation_ok_state hok
  have hpe : pids = [p.id] := by
    rw [hpids] at hnorm
    exact Except.ok.inj hnorm
  subst hpe
  obtain ⟨hpromos, _⟩ := loadAndValidatePromotions_ok_inv hload
  rw [hfilter] at hpromos
  subst hpromos
  have hused : promotionUsed s1 p.id target.id = true := by
    simp [promotionUsed, htp_eq, htx_eq, hcid, hcuid]
  have hwin : (decide (p.startTime > now2) || decide (p.endTime < now2)) = false := by
    push_neg at hactive2
    simp only [Bool.or_eq_false_iff, decide_eq_false_iff_not]
    exact ⟨not_lt.mpr hactive2.1, not_lt.mpr hactive2.2⟩
  have hminb : (match p.minSpending, (some (jsRound (spent2 * 100)) : Option ℤ) with
      | some m, some c => decide ((c : ℚ) / 100 < m)
      | _, _ => false) = false := by
    cases hm : p.minSpending with
    | none => rfl
    | some m => simpa using hmin2 m hm
  refine ⟨target, hfind, hused, ?_⟩
  refine handlePurchaseCreation_load_error hspent2 hnorm2 hfind' ?_
  rw [htid]
  exact loadAndValidatePromotions_onetime_used
    (by rw [hpromo_eq]; exact hfilter) hone hused hwin hminb

/-- C4 (code evaluated at the failing input): the redemption-creation route
never creates the claimed pending row — its validation closures hit the
shadowing local `validators` array and throw a `TypeError` for every input,
here a verified user with 100 points requesting a 50-point redemption, before
`prisma.$transaction` is reached; the thrown outcome carries no store, so no
transaction row is appended and no balance changes.  (The `$transaction` body
and the mark-processed handler do implement the claimed deferred debit, but
the creation step is unreachable.) -/
theorem redemption_creation_route_throws :
    redemptionRoute baseStore 1 50 none = .thrown ∧
    getPoints baseStore 1 = some 100 ∧
    baseStore.transactions = [] ∧
    (∀ (s : Store) (uSub : Nat) (amt : ℤ) (rm : Option String),
      redemptionRoute s uSub amt rm = .thrown) := by
  exact ⟨rfl, by decide, rfl, fun s uSub amt rm => rfl⟩

/-- C1 witness: cashier 2 records a 10.00 purchase for `aliceU` (no
promotions): the stored amount is `round(1000/25) + 0 = 40` and her balance
goes from 100 to 140. -/
theorem purchase_credits_base_plus_bonus_witness :
    ∃ (pids : List Nat) (target : User) (promos : List Promotion) (extra : ℤ)
      (created : Transaction),
      baseStore.users.find? (fun u => u.utorid == normalizeUtorid "alice") = some target ∧
      normalizePromotionIds .null = .ok pids ∧
      loadAndValidatePromotions baseStore pids target.id
        (some (jsRound ((10:ℚ) * 100))) 0 = .ok (promos, extra) ∧
      storeAfterPurchase.transactions = created :: baseStore.transactions ∧
      created.amount = computeBaseEarned (jsRound ((10:ℚ) * 100)) + extra ∧
      respPurchase.earned = created.amount ∧
      getPoints baseStore target.id = some target.points ∧
      getPoints storeAfterPurchase target.id = some (target.points + created.amount) := by
  refine purchase_credits_base_plus_bonus baseStore cashierU "alice" 10 .null none 0
    storeAfterPurchase respPurchase ?_ ?_ ?_ ?_
  · have e1 : jsRound ((10:ℚ) * 100) = 1000 := by norm_num [jsRound, Rat.floor]
    have e2 : computeBaseEarned 1000 = 40 := by
      norm_num [computeBaseEarned, jsRound, Rat.floor]
    have e3 : ((1000:ℤ):ℚ)/100 = 10 := by norm_num
    simp only [handlePurchaseCreation, normalizePromotionIds, e1, e2, e3]
    norm_num [baseStore, aliceU, cashierU, storeAfterPurchase, respPurchase, List.find?,
      loadAndValidatePromotions, updatePoints, e1, e2, e3]
  · simp [cashierU]
  · simp [baseStore]
  · decide

/-- C3 witness: `aliceU` consumes the one-time 50-point `promoOT` on a first
10.00 purchase; a second 10.00 purchase naming the same promotion id fails
with the "already used" 400 error. -/
theorem onetime_promotion_single_use_witness :
    ∃ target : User,
      storeOT.users.find? (fun u => u.utorid == normalizeUtorid "alice") = some target ∧
      promotionUsed storeAfterOT promoOT.id target.id = true ∧
      handlePurchaseCreation storeAfterOT cashierU "alice" 10 (.arr [1]) none 7 =
        .error ⟨400, "Promotion already used by this user"⟩ := by
  refine onetime_promotion_single_use storeOT cashierU cashierU "alice" 10 10
    (.arr [1]) (.arr [1]) none none 5 7 storeAfterOT respOT promoOT
    ?_ ?_ ?_ rfl ?_ ?_ ?_ ?_
  · rfl
  · rfl
  · rfl
  · have e1 : jsRound ((10:ℚ) * 100) = 1000 := by norm_num [jsRound, Rat.floor]
    have e2 : computeBaseEarned 1000 = 40 := by
      norm_num [computeBaseEarned, jsRound, Rat.floor]
    have e3 : ((1000:ℤ):ℚ)/100 = 10 := by norm_num
    simp only [handlePurchaseCreation, normalizePromotionIds, e1, e2, e3]
    norm_num [storeOT, aliceU, cashierU, promoOT, storeAfterOT, otTx, respOT, List.find?,
      loadAndValidatePromotions, evalPromos, promotionUsed, normalizeStep, updatePoints,
      e1, e2, e3]
  · norm_num
  · decide
  · simp [promoOT]

end Ledger

